import Mathlib

/-!
  # Farmers-management disbursement core: a shallow embedding

  A shallow embedding of the incentive-disbursement core of the
  `farmersmanagement` Django application, faithful to
  `farmers/redemption_center_views.py`, `farmers/forms.py`,
  `farmers/views.py` and `farmers/models.py`. Entities become Lean
  structures; the database becomes an explicit `DB` record of lists; each
  request handler becomes a function from the database and the request
  parameters to a result (mirroring the JSON responses) and, where it
  writes, a new database. Statuses are the literal strings the code
  compares against. Quantities arriving from a request are `Int` (Python's
  `int(...)` can be negative); stored quantities are `Nat`
  (`PositiveIntegerField` columns). The floating-point percentage of the
  dashboard is modelled over `Rat`, which is exact where the claim in
  question (division-by-zero safety) lives.
-/

namespace FarmersMgmt

/-- A `Farmer` row (models.py): only the columns the disbursement core
reads are carried — primary key, the unique `NIN`, and `farmer_status`
(one of the strings "active" / "inactive"). -/
structure Farmer where
  farmer_id : Nat
  nin : String
  farmer_status : String
  deriving Repr, DecidableEq

/-- A `RedemptionCenter` row: primary key, display name, and the
`redemption_center_status` string the access checks compare against. -/
structure RedemptionCenter where
  redemption_center_id : Nat
  fullname : String
  redemption_center_status : String
  deriving Repr, DecidableEq

/-- An `Incentive` row (models.py lines 352-386): primary key, name, the
total allocated `quantity` (a `PositiveIntegerField`, hence `Nat`), and
the owning redemption center's key. -/
structure Incentive where
  incentive_id : Nat
  incentive_name : String
  quantity : Nat
  redemption_center_id : Nat
  deriving Repr, DecidableEq

/-- Modelled from the spec: the `Disbursement` model is imported by every
view file but its class body is not among the source files here; the spec
(section 3) gives its shape — one Incentive, one Farmer, one
RedemptionCenter, a positive quantity, the issuing user, optional notes. -/
structure Disbursement where
  disbursement_id : Nat
  incentive_id : Nat
  farmer_id : Nat
  quantity : Nat
  redemption_center_id : Nat
  disbursed_by : Nat
  notes : String
  deriving Repr, DecidableEq

/-- The relational store: one list per table, plus the next auto-assigned
disbursement key. -/
structure DB where
  farmers : List Farmer
  incentives : List Incentive
  centers : List RedemptionCenter
  disbursements : List Disbursement
  next_disbursement_id : Nat
  deriving Repr, DecidableEq

/-- Modelled from the spec: `Incentive.get_disbursed_quantity` is called
throughout `redemption_center_views.py` but defined in the part of
`models.py` not present here; the spec (section 4.1) defines it as the sum
of `quantity` over all Disbursements referencing the incentive, 0 if none. -/
def get_disbursed_quantity (db : DB) (i : Incentive) : Nat :=
  ((db.disbursements.filter (fun d => d.incentive_id == i.incentive_id)).map
    (fun d => d.quantity)).sum

/-- Modelled from the spec: `Incentive.get_remaining_quantity` is the
incentive's total quantity minus its disbursed quantity (section 4.1); the
difference is taken in `Int`, as in Python, so that a corrupted store
would surface a negative value rather than clamp. -/
def get_remaining_quantity (db : DB) (i : Incentive) : Int :=
  (i.quantity : Int) - (get_disbursed_quantity db i : Int)

/-- The JSON outcomes of `process_disbursement`
(redemption_center_views.py lines 300-366), one constructor per distinct
response: `success` carries the new disbursement's key and the freshly
recomputed remaining quantity; `insufficientQuantity` carries the
remaining amount reported in the error message. -/
inductive DisburseResult where
  | accessDenied : DisburseResult
  | missingParams : DisburseResult
  | invalidQuantity : DisburseResult
  | incentiveNotFound : DisburseResult
  | insufficientQuantity : Int → DisburseResult
  | farmerNotFound : DisburseResult
  | inactiveFarmer : DisburseResult
  | duplicateDisbursement : DisburseResult
  | success : Nat → Int → DisburseResult
  deriving Repr, DecidableEq

/-- `process_disbursement` (redemption_center_views.py lines 300-366).
`profile` is the authenticated user's `redemption_center_profile`, `none`
when the user has no such profile (the view's `hasattr` check); note the
view consults only the profile's existence, never its status. The
incentive lookup is `get_object_or_404(Incentive, pk, redemption_center)`:
an id owned by another center is a 404. `incentive_id` / `farmer_id` are
`none` when the POST field is missing or empty. Checks appear in the
source's order: missing params, quantity at least 1, incentive lookup,
remaining quantity, farmer lookup, farmer status, duplicate
(incentive, farmer) pair; only then is the row created. -/
def process_disbursement (db : DB) (profile : Option RedemptionCenter)
    (incentive_id farmer_id : Option Nat) (quantity : Int)
    (notes : String) (actor : Nat) : DisburseResult × DB :=
  match profile with
  | none => (.accessDenied, db)
  | some center =>
    match incentive_id, farmer_id with
    | some iid, some fid =>
      if quantity < 1 then (.invalidQuantity, db)
      else
        match db.incentives.find? (fun i =>
            i.incentive_id == iid &&
            i.redemption_center_id == center.redemption_center_id) with
        | none => (.incentiveNotFound, db)
        | some incentive =>
          let remaining := get_remaining_quantity db incentive
          if quantity > remaining then (.insufficientQuantity remaining, db)
          else
            match db.farmers.find? (fun f => f.farmer_id == fid) with
            | none => (.farmerNotFound, db)
            | some farmer =>
              if farmer.farmer_status ≠ "active" then (.inactiveFarmer, db)
              else if db.disbursements.any (fun d =>
                  d.incentive_id == incentive.incentive_id &&
                  d.farmer_id == farmer.farmer_id) then
                (.duplicateDisbursement, db)
              else
                let d : Disbursement :=
                  ⟨db.next_disbursement_id, incentive.incentive_id,
                   farmer.farmer_id, quantity.toNat,
                   center.redemption_center_id, actor, notes⟩
                let db2 : DB :=
                  { db with disbursements := db.disbursements ++ [d],
                            next_disbursement_id := db.next_disbursement_id + 1 }
                (.success d.disbursement_id (get_remaining_quantity db2 incentive), db2)
    | _, _ => (.missingParams, db)

/-- The JSON outcomes of `lookup_farmer_by_nin`
(redemption_center_views.py lines 244-297): `found` carries the farmer's
key and reported status; `notFound` carries the looked-up NIN echoed in
the error message. -/
inductive LookupResult where
  | accessDenied : LookupResult
  | ninRequired : LookupResult
  | inactiveFarmer : LookupResult
  | notFound : String → LookupResult
  | found : Nat → String → LookupResult
  deriving Repr, DecidableEq

/-- `lookup_farmer_by_nin` (redemption_center_views.py lines 244-297):
exact match on the (unique) NIN column; an empty NIN is rejected; a
matched farmer whose status is not "active" yields the inactive-farmer
error with `farmer: None` rather than the farmer payload. As with
`process_disbursement`, only the profile's existence is checked. -/
def lookup_farmer_by_nin (db : DB) (profile : Option RedemptionCenter)
    (nin : String) : LookupResult :=
  match profile with
  | none => .accessDenied
  | some _ =>
    if nin = "" then .ninRequired
    else
      match db.farmers.find? (fun f => f.nin == nin) with
      | some farmer =>
        if farmer.farmer_status ≠ "active" then .inactiveFarmer
        else .found farmer.farmer_id farmer.farmer_status
      | none => .notFound nin

/-- The outcome of the access prologue shared by every page view of the
redemption-center portal (dashboard lines 72-86, and identically in
allocations, disburse, disbursements, profile): no profile redirects to
login; an inactive profile is logged out (`logout(request)`) and
redirected; otherwise the view proceeds. -/
inductive GateResult where
  | notCenter : GateResult
  | forcedLogout : GateResult
  | allowed : GateResult
  deriving Repr, DecidableEq

/-- The shared page-view access prologue (redemption_center_views.py
lines 76-86 and its copies): `hasattr` check, then the
`redemption_center_status` check with forced logout. -/
def redemption_center_page_gate (profile : Option RedemptionCenter) : GateResult :=
  match profile with
  | none => .notCenter
  | some rc =>
    if rc.redemption_center_status ≠ "active" then .forcedLogout else .allowed

/-- One row of the dashboard's inventory table
(redemption_center_views.py lines 101-107). -/
structure InventoryEntry where
  incentive_id : Nat
  total_quantity : Nat
  disbursed_quantity : Nat
  remaining_quantity : Int
  percentage_remaining : Rat
  deriving Repr, DecidableEq

/-- The percentage computation of the inventory views
(redemption_center_views.py line 106 and line 196):
`(remaining / quantity * 100) if quantity > 0 else 0`. -/
def percentage_remaining_calc (remaining : Int) (total : Nat) : Rat :=
  if 0 < total then (remaining : Rat) / (total : Rat) * 100 else 0

/-- The dashboard inventory loop (redemption_center_views.py lines
93-107): every incentive of the center with remaining quantity above zero
yields one entry. -/
def dashboard_inventory (db : DB) (center : RedemptionCenter) : List InventoryEntry :=
  (db.incentives.filter (fun i =>
      i.redemption_center_id == center.redemption_center_id)).filterMap
    (fun i =>
      let remaining := get_remaining_quantity db i
      if 0 < remaining then
        some ⟨i.incentive_id, i.quantity, get_disbursed_quantity db i,
              remaining, percentage_remaining_calc remaining i.quantity⟩
      else none)

/-- Django's `PositiveIntegerField` accepts any integer from 0 to
2^31 - 1; this is the store-level validation applied to
`Incentive.quantity` (models.py line 358) — zero is accepted. -/
def positive_integer_field_ok (v : Int) : Bool :=
  0 ≤ v && v ≤ 2147483647

/-- The `redemption_center` choice queryset built by
`IncentiveForm.__init__` (forms.py lines 305-317): active centers only,
widened to additionally include the instance's current center when
editing an incentive whose center is no longer active. -/
def incentive_form_center_queryset (db : DB) (inst : Option Incentive) :
    List RedemptionCenter :=
  match inst with
  | some inc =>
    match db.centers.find? (fun c =>
        c.redemption_center_id == inc.redemption_center_id) with
    | some cur =>
      if cur.redemption_center_status ≠ "active" then
        db.centers.filter (fun c =>
          c.redemption_center_status == "active" ||
          c.redemption_center_id == inc.redemption_center_id)
      else db.centers.filter (fun c => c.redemption_center_status == "active")
    | none => db.centers.filter (fun c => c.redemption_center_status == "active")
  | none => db.centers.filter (fun c => c.redemption_center_status == "active")

/-- `IncentiveForm.clean_redemption_center` (forms.py lines 319-327):
rejects any chosen center whose status is not "active", with no
exception for an unchanged reference. -/
def clean_redemption_center (center : RedemptionCenter) :
    Except String RedemptionCenter :=
  if center.redemption_center_status ≠ "active" then
    .error "Cannot assign incentive to inactive redemption center. Please select an active redemption center."
  else .ok center

/-- Outcome of submitting the incentive edit form. -/
inductive EditOutcome where
  | invalidChoice : EditOutcome
  | validationError : String → EditOutcome
  | saved : Incentive → EditOutcome
  deriving Repr, DecidableEq

/-- The POST path of `incentive_edit` (views.py lines 910-941) composed
with the form's validation: the chosen center must lie in the form's
choice queryset (Django's `ModelChoiceField` membership check), then
`clean_redemption_center` runs, then the view re-checks the status once
more before saving. -/
def incentive_edit_submit (db : DB) (incentive : Incentive)
    (chosen : RedemptionCenter) : EditOutcome :=
  if chosen ∈ incentive_form_center_queryset db (some incentive) then
    match clean_redemption_center chosen with
    | .error msg => .validationError msg
    | .ok c =>
      if c.redemption_center_status ≠ "active" then
        .validationError "Cannot assign incentive to inactive redemption center. Please select an active redemption center."
      else .saved { incentive with redemption_center_id := c.redemption_center_id }
  else .invalidChoice

/-- Primary keys of the incentive table are pairwise distinct — the
relational uniqueness of `incentive_id = models.AutoField(primary_key)`. -/
def incentive_ids_nodup (db : DB) : Prop :=
  (db.incentives.map (fun i => i.incentive_id)).Nodup

/-- The accounting invariant of the spec: no incentive is overdrawn — the
sum of the quantities of its disbursements stays within its total. -/
def quantity_invariant (db : DB) : Prop :=
  ∀ i ∈ db.incentives, get_disbursed_quantity db i ≤ i.quantity

/-- One disbursement request, as fed to `process_disbursement`. -/
structure DisburseRequest where
  profile : Option RedemptionCenter
  incentive_id : Option Nat
  farmer_id : Option Nat
  quantity : Int
  notes : String
  actor : Nat
  deriving Repr, DecidableEq

/-- Run a sequence of disbursement requests, threading the store. -/
def run_disbursements (db : DB) (reqs : List DisburseRequest) : DB :=
  reqs.foldl
    (fun s r =>
      (process_disbursement s r.profile r.incentive_id r.farmer_id
        r.quantity r.notes r.actor).2)
    db

/-! ## Concrete fixtures for witnesses and counterexamples -/

/-- An active redemption center, key 1. -/
def centerA : RedemptionCenter := ⟨1, "Center A", "active"⟩

/-- A second active redemption center, key 2. -/
def centerB : RedemptionCenter := ⟨2, "Center B", "active"⟩

/-- A redemption center, key 3, whose status is inactive. -/
def centerX : RedemptionCenter := ⟨3, "Center X", "inactive"⟩

/-- An active farmer, key 1. -/
def farmerA : Farmer := ⟨1, "12345678901", "active"⟩

/-- A second active farmer, key 2. -/
def farmerB : Farmer := ⟨2, "22345678901", "active"⟩

/-- A farmer, key 3, whose status is inactive. -/
def farmerI : Farmer := ⟨3, "33345678901", "inactive"⟩

/-- An incentive of 10 units owned by center 1. -/
def incentive1 : Incentive := ⟨1, "Fertilizer", 10, 1⟩

/-- An incentive of 5 units owned by center 2 — foreign to center 1. -/
def incentive2 : Incentive := ⟨2, "Seeds", 5, 2⟩

/-- An incentive of 10 units owned by the inactive center 3. -/
def incentive3 : Incentive := ⟨3, "Tools", 10, 3⟩

/-- An incentive referencing the inactive center 3, as left behind when a
center is deactivated after allocation. -/
def incentiveOfX : Incentive := ⟨4, "Mats", 6, 3⟩

/-- Base store: three farmers, four incentives, three centers, no
disbursements yet. -/
def db0 : DB :=
  ⟨[farmerA, farmerB, farmerI],
   [incentive1, incentive2, incentive3, incentiveOfX],
   [centerA, centerB, centerX],
   [], 1⟩

/-- A store in which farmer 1 already received 5 units of incentive 1. -/
def dbDup : DB :=
  ⟨[farmerA, farmerB, farmerI],
   [incentive1, incentive2, incentive3, incentiveOfX],
   [centerA, centerB, centerX],
   [⟨1, 1, 1, 5, 1, 7, ""⟩], 2⟩

/-! ## Helper lemmas -/

/-- Appending one disbursement row adds its quantity to the disbursed
total of the incentive it references and leaves every other incentive's
total unchanged. -/
theorem get_disbursed_quantity_append (db db2 : DB) (d : Disbursement)
    (i : Incentive) (h : db2.disbursements = db.disbursements ++ [d]) :
    get_disbursed_quantity db2 i =
      get_disbursed_quantity db i +
        (if d.incentive_id = i.incentive_id then d.quantity else 0) := by
  simp only [get_disbursed_quantity, h, List.filter_append, List.map_append,
    List.sum_append]
  by_cases hd : d.incentive_id = i.incentive_id <;>
    simp [List.filter_cons, hd]

/-- `process_disbursement` either leaves the store untouched (every
failure branch) or, when all checks pass, appends exactly one disbursement
row — carrying the request's quantity, the found incentive and farmer, and
the acting center — and bumps the key counter; in that case the result is
the success response reporting the new row's key and the recomputed
remaining quantity. -/
theorem process_disbursement_state (db : DB)
    (profile : Option RedemptionCenter) (iid fid : Option Nat) (q : Int)
    (notes : String) (actor : Nat) :
    ((process_disbursement db profile iid fid q notes actor).2 = db ∧
      ∀ x y, (process_disbursement db profile iid fid q notes actor).1 ≠
        .success x y) ∨
    ∃ center i f incentive farmer,
      profile = some center ∧ iid = some i ∧ fid = some f ∧
      db.incentives.find? (fun x =>
        x.incentive_id == i &&
        x.redemption_center_id == center.redemption_center_id) = some incentive ∧
      db.farmers.find? (fun x => x.farmer_id == f) = some farmer ∧
      1 ≤ q ∧ q ≤ get_remaining_quantity db incentive ∧
      farmer.farmer_status = "active" ∧
      (∀ d ∈ db.disbursements,
        ¬(d.incentive_id = incentive.incentive_id ∧
          d.farmer_id = farmer.farmer_id)) ∧
      (process_disbursement db profile iid fid q notes actor).2 =
        { db with
          disbursements := db.disbursements ++
            [⟨db.next_disbursement_id, incentive.incentive_id,
              farmer.farmer_id, q.toNat, center.redemption_center_id,
              actor, notes⟩],
          next_disbursement_id := db.next_disbursement_id + 1 } ∧
      (process_disbursement db profile iid fid q notes actor).1 =
        .success db.next_disbursement_id
          (get_remaining_quantity
            (process_disbursement db profile iid fid q notes actor).2
            incentive) := by
  unfold process_disbursement
  cases profile with
  | none => exact Or.inl ⟨rfl, fun x y h => nomatch h⟩
  | some center =>
    cases iid with
    | none => exact Or.inl ⟨rfl, fun x y h => nomatch h⟩
    | some i =>
      cases fid with
      | none => exact Or.inl ⟨rfl, fun x y h => nomatch h⟩
      | some f =>
        dsimp only
        by_cases hq1 : q < 1
        · rw [if_pos hq1]; exact Or.inl ⟨rfl, fun x y h => nomatch h⟩
        · rw [if_neg hq1]
          cases hfind : db.incentives.find? (fun x =>
              x.incentive_id == i &&
              x.redemption_center_id == center.redemption_center_id) with
          | none => exact Or.inl ⟨rfl, fun x y h => nomatch h⟩
          | some incentive =>
            dsimp only
            by_cases hqr : q > get_remaining_quantity db incentive
            · rw [if_pos hqr]; exact Or.inl ⟨rfl, fun x y h => nomatch h⟩
            · rw [if_neg hqr]
              cases hff : db.farmers.find? (fun x => x.farmer_id == f) with
              | none => exact Or.inl ⟨rfl, fun x y h => nomatch h⟩
              | some farmer =>
                dsimp only
                by_cases hfs : farmer.farmer_status ≠ "active"
                · rw [if_pos hfs]; exact Or.inl ⟨rfl, fun x y h => nomatch h⟩
                · rw [if_neg hfs]
                  by_cases hdup : (db.disbursements.any (fun d =>
                      d.incentive_id == incentive.incentive_id &&
                      d.farmer_id == farmer.farmer_id)) = true
                  · rw [if_pos hdup]; exact Or.inl ⟨rfl, fun x y h => nomatch h⟩
                  · rw [if_neg hdup]
                    refine Or.inr ⟨center, i, f, incentive, farmer, rfl, rfl,
                      rfl, hfind, hff, by omega, by omega,
                      not_not.mp hfs, ?_, rfl, rfl⟩
                    intro d hd hcontra
                    exact hdup (List.any_eq_true.mpr
                      ⟨d, hd, by simp [hcontra.1, hcontra.2]⟩)

/-- One `process_disbursement` call preserves primary-key distinctness and
the accounting invariant: the appended row's quantity fits within the
checked remaining quantity of the (unique, by key distinctness) incentive
it references. -/
theorem process_disbursement_preserves_invariant (db : DB)
    (profile : Option RedemptionCenter) (iid fid : Option Nat) (q : Int)
    (notes : String) (actor : Nat)
    (hnd : incentive_ids_nodup db) (hinv : quantity_invariant db) :
    incentive_ids_nodup (process_disbursement db profile iid fid q notes actor).2 ∧
      quantity_invariant (process_disbursement db profile iid fid q notes actor).2 := by
  rcases process_disbursement_state db profile iid fid q notes actor with
    ⟨h, -⟩ | ⟨center, i, f, incentive, farmer, _, _, _, hfind, _, hq1, hqr, _, _, h2, _⟩
  · rw [h]; exact ⟨hnd, hinv⟩
  · have hmem : incentive ∈ db.incentives := List.mem_of_find?_eq_some hfind
    have hincs : (process_disbursement db profile iid fid q notes actor).2.incentives
        = db.incentives := by rw [h2]
    constructor
    · unfold incentive_ids_nodup
      rw [hincs]; exact hnd
    · intro j hj
      rw [hincs] at hj
      have happ := get_disbursed_quantity_append db
        (process_disbursement db profile iid fid q notes actor).2
        ⟨db.next_disbursement_id, incentive.incentive_id, farmer.farmer_id,
          q.toNat, center.redemption_center_id, actor, notes⟩ j (by rw [h2])
      rw [happ]
      by_cases hid : incentive.incentive_id = j.incentive_id
      · have hj_eq : incentive = j :=
          List.inj_on_of_nodup_map hnd hmem hj hid
        subst hj_eq
        dsimp only
        rw [if_pos rfl]
        have hd := hinv incentive hmem
        have hq0 : (0 : Int) ≤ q := by omega
        have htn : ((q.toNat : Int)) = q := Int.toNat_of_nonneg hq0
        unfold get_remaining_quantity at hqr
        omega
      · simp only [if_neg hid, Nat.add_zero]
        exact hinv j hj

/-- When every check passes — quantity at least 1, incentive found under
the acting center, quantity within the remaining amount, farmer found and
active, no prior row for the pair — `process_disbursement` returns the
success response reporting the new remaining quantity (the old one less
the request) and the store extended by exactly the one new row. -/
theorem process_disbursement_success_eq (db : DB)
    (center : RedemptionCenter) (i f : Nat) (q : Int) (notes : String)
    (actor : Nat) (incentive : Incentive) (farmer : Farmer)
    (hq1 : 1 ≤ q)
    (hfind : db.incentives.find? (fun x =>
      x.incentive_id == i &&
      x.redemption_center_id == center.redemption_center_id) = some incentive)
    (hqr : q ≤ get_remaining_quantity db incentive)
    (hff : db.farmers.find? (fun x => x.farmer_id == f) = some farmer)
    (hfa : farmer.farmer_status = "active")
    (hnodup : ∀ d ∈ db.disbursements,
      ¬(d.incentive_id = incentive.incentive_id ∧
        d.farmer_id = farmer.farmer_id)) :
    process_disbursement db (some center) (some i) (some f) q notes actor =
      (.success db.next_disbursement_id
        (get_remaining_quantity db incentive - q),
       { db with
         disbursements := db.disbursements ++
           [⟨db.next_disbursement_id, incentive.incentive_id,
             farmer.farmer_id, q.toNat, center.redemption_center_id,
             actor, notes⟩],
         next_disbursement_id := db.next_disbursement_id + 1 }) := by
  have hany : (db.disbursements.any (fun d =>
      d.incentive_id == incentive.incentive_id &&
      d.farmer_id == farmer.farmer_id)) = false := by
    rw [← Bool.not_eq_true, List.any_eq_true]
    rintro ⟨d, hd, hp⟩
    simp only [Bool.and_eq_true, beq_iff_eq] at hp
    exact hnodup d hd hp
  unfold process_disbursement
  dsimp only
  rw [if_neg (by omega : ¬ q < 1), hfind]
  dsimp only
  rw [if_neg (by omega : ¬ q > get_remaining_quantity db incentive)]
  simp only [hff]
  rw [if_neg (by simp [hfa]), hany]
  have hrem : get_remaining_quantity
      { db with
        disbursements := db.disbursements ++
          [⟨db.next_disbursement_id, incentive.incentive_id,
            farmer.farmer_id, q.toNat, center.redemption_center_id,
            actor, notes⟩],
        next_disbursement_id := db.next_disbursement_id + 1 } incentive =
      get_remaining_quantity db incentive - q := by
    unfold get_remaining_quantity
    rw [get_disbursed_quantity_append db _
      ⟨db.next_disbursement_id, incentive.incentive_id, farmer.farmer_id,
        q.toNat, center.redemption_center_id, actor, notes⟩ incentive rfl]
    dsimp only
    rw [if_pos rfl]
    have htn : ((q.toNat : Int)) = q := Int.toNat_of_nonneg (by omega)
    push_cast
    omega
  rw [hrem]
  simp

/-- Every sequence of `process_disbursement` calls preserves key
distinctness and the accounting invariant. -/
theorem run_disbursements_preserves_invariant (db : DB)
    (reqs : List DisburseRequest)
    (hnd : incentive_ids_nodup db) (hinv : quantity_invariant db) :
    incentive_ids_nodup (run_disbursements db reqs) ∧
      quantity_invariant (run_disbursements db reqs) := by
  induction reqs generalizing db with
  | nil => exact ⟨hnd, hinv⟩
  | cons r rs ih =>
    have h := process_disbursement_preserves_invariant db r.profile
      r.incentive_id r.farmer_id r.quantity r.notes r.actor hnd hinv
    exact ih _ h.1 h.2

/-! ## Claim theorems -/

/-- Claim C1: starting from a store with distinct incentive keys that
satisfies the accounting invariant, after any sequence of
`process_disbursement` calls (successful or not — failed calls leave the
store unchanged) the sum of the quantities of the disbursements
referencing each incentive never exceeds that incentive's total quantity;
equivalently, each incentive's remaining quantity, total minus disbursed,
is never negative. -/
theorem disburse_sequence_never_overdraws (db : DB)
    (reqs : List DisburseRequest)
    (hnd : incentive_ids_nodup db) (hinv : quantity_invariant db) :
    ∀ i ∈ (run_disbursements db reqs).incentives,
      get_disbursed_quantity (run_disbursements db reqs) i ≤ i.quantity ∧
      0 ≤ get_remaining_quantity (run_disbursements db reqs) i := by
  intro i hi
  have h := (run_disbursements_preserves_invariant db reqs hnd hinv).2 i hi
  refine ⟨h, ?_⟩
  unfold get_remaining_quantity
  omega

/-- Witness for C1: the concrete base store, a two-request sequence (one
successful disbursement, one insufficient-quantity rejection), and
incentive 1 of the resulting store. -/
theorem disburse_sequence_never_overdraws_witness :
    get_disbursed_quantity (run_disbursements db0
        [⟨some centerA, some 1, some 1, 4, "", 7⟩,
         ⟨some centerA, some 1, some 2, 9, "", 7⟩]) incentive1 ≤
      incentive1.quantity ∧
    0 ≤ get_remaining_quantity (run_disbursements db0
        [⟨some centerA, some 1, some 1, 4, "", 7⟩,
         ⟨some centerA, some 1, some 2, 9, "", 7⟩]) incentive1 :=
  disburse_sequence_never_overdraws db0
    [⟨some centerA, some 1, some 1, 4, "", 7⟩,
     ⟨some centerA, some 1, some 2, 9, "", 7⟩]
    (by unfold incentive_ids_nodup; decide)
    (by unfold quantity_invariant; decide)
    incentive1 (by decide)

/-- Claim C2: for a well-formed request (quantity at least 1, both ids
present), the disbursement validation runs in the source's fixed order and
stops at the first failing check, reporting that check's reason:
(1) the incentive must exist under the acting center — an incentive id
every owner of which is another center is reported as not found, not as a
permission error; (2) the remaining quantity must cover the request, else
the exact remaining amount is reported; (3) the farmer must exist;
(4) the farmer must be active; (5) no disbursement may already exist for
the (incentive, farmer) pair. -/
theorem process_disbursement_check_order (db : DB)
    (center : RedemptionCenter) (i f : Nat) (q : Int) (notes : String)
    (actor : Nat) (hq : 1 ≤ q) :
    (db.incentives.find? (fun x =>
        x.incentive_id == i &&
        x.redemption_center_id == center.redemption_center_id) = none →
      (process_disbursement db (some center) (some i) (some f) q notes
        actor).1 = .incentiveNotFound) ∧
    ((∀ x ∈ db.incentives, x.incentive_id = i →
        x.redemption_center_id ≠ center.redemption_center_id) →
      (process_disbursement db (some center) (some i) (some f) q notes
        actor).1 = .incentiveNotFound) ∧
    (∀ incentive,
      db.incentives.find? (fun x =>
        x.incentive_id == i &&
        x.redemption_center_id == center.redemption_center_id) =
          some incentive →
      (get_remaining_quantity db incentive < q →
        (process_disbursement db (some center) (some i) (some f) q notes
          actor).1 =
          .insufficientQuantity (get_remaining_quantity db incentive)) ∧
      (q ≤ get_remaining_quantity db incentive →
        (db.farmers.find? (fun x => x.farmer_id == f) = none →
          (process_disbursement db (some center) (some i) (some f) q notes
            actor).1 = .farmerNotFound) ∧
        (∀ farmer,
          db.farmers.find? (fun x => x.farmer_id == f) = some farmer →
          (farmer.farmer_status ≠ "active" →
            (process_disbursement db (some center) (some i) (some f) q
              notes actor).1 = .inactiveFarmer) ∧
          (farmer.farmer_status = "active" →
            (∃ d ∈ db.disbursements,
              d.incentive_id = incentive.incentive_id ∧
              d.farmer_id = farmer.farmer_id) →
            (process_disbursement db (some center) (some i) (some f) q
              notes actor).1 = .duplicateDisbursement)))) := by
  refine ⟨?_, ?_, ?_⟩
  · intro h
    unfold process_disbursement
    dsimp only
    rw [if_neg (by omega : ¬ q < 1), h]
  · intro h
    have hnone : db.incentives.find? (fun x =>
        x.incentive_id == i &&
        x.redemption_center_id == center.redemption_center_id) = none := by
      rw [List.find?_eq_none]
      intro x hx
      simp only [Bool.and_eq_true, beq_iff_eq, not_and]
      exact h x hx
    unfold process_disbursement
    dsimp only
    rw [if_neg (by omega : ¬ q < 1), hnone]
  · intro incentive hfind
    constructor
    · intro hlt
      unfold process_disbursement
      dsimp only
      rw [if_neg (by omega : ¬ q < 1), hfind]
      dsimp only
      rw [if_pos (by omega : q > get_remaining_quantity db incentive)]
    · intro hle
      constructor
      · intro hnone
        unfold process_disbursement
        dsimp only
        rw [if_neg (by omega : ¬ q < 1), hfind]
        dsimp only
        rw [if_neg (by omega : ¬ q > get_remaining_quantity db incentive),
          hnone]
      · intro farmer hff
        constructor
        · intro hst
          unfold process_disbursement
          dsimp only
          rw [if_neg (by omega : ¬ q < 1), hfind]
          dsimp only
          rw [if_neg (by omega : ¬ q > get_remaining_quantity db incentive)]
          simp only [hff]
          rw [if_pos hst]
        · intro hst hdup
          have hany : (db.disbursements.any (fun d =>
              d.incentive_id == incentive.incentive_id &&
              d.farmer_id == farmer.farmer_id)) = true := by
            rw [List.any_eq_true]
            obtain ⟨d, hd, h1, h2⟩ := hdup
            exact ⟨d, hd, by simp [h1, h2]⟩
          unfold process_disbursement
          dsimp only
          rw [if_neg (by omega : ¬ q < 1), hfind]
          dsimp only
          rw [if_neg (by omega : ¬ q > get_remaining_quantity db incentive)]
          simp only [hff]
          rw [if_neg (by simp [hst]), hany]
          simp

/-- Witness for C2: at the concrete base store, a request for incentive
key 99 (owned by nobody) is answered with the not-found error. -/
theorem process_disbursement_check_order_witness :
    (process_disbursement db0 (some centerA) (some 99) (some 1) 1 "" 7).1 =
      .incentiveNotFound :=
  (process_disbursement_check_order db0 centerA 99 1 1 "" 7
    (by decide)).1 (by decide)

/-- Claim C3 counterexample: incentive 4 references center 3, whose
status is inactive. Submitting the edit form with the redemption-center
reference left unchanged (the same center 3) produces the inactive-center
validation error — the claim that such a save does not produce a
`ValidationError` is false on the code. -/
theorem incentive_edit_unchanged_inactive_center_fails :
    incentive_edit_submit db0 incentiveOfX centerX =
      .validationError "Cannot assign incentive to inactive redemption center. Please select an active redemption center." := by
  decide

/-- Claim C3 amended: the unchanged-reference carve-out for an inactive
center exists only at the choice-queryset level — when an incentive's
current center has become inactive, that center is still offered among
the form's selectable choices — but `clean_redemption_center` (and the
view's duplicate re-check) rejects any inactive center unconditionally,
so saving the edit form with the same inactive center always produces the
inactive-center validation error. -/
theorem incentive_edit_unchanged_inactive_center_rule (db : DB)
    (inc : Incentive) (cur : RedemptionCenter)
    (hfind : db.centers.find? (fun c =>
      c.redemption_center_id == inc.redemption_center_id) = some cur)
    (hst : cur.redemption_center_status ≠ "active") :
    cur ∈ incentive_form_center_queryset db (some inc) ∧
    incentive_edit_submit db inc cur =
      .validationError "Cannot assign incentive to inactive redemption center. Please select an active redemption center." := by
  have hmem : cur ∈ db.centers := List.mem_of_find?_eq_some hfind
  have hpred := List.find?_some hfind
  have hqs : cur ∈ incentive_form_center_queryset db (some inc) := by
    unfold incentive_form_center_queryset
    dsimp only
    rw [hfind]
    dsimp only
    rw [if_pos hst]
    refine List.mem_filter.mpr ⟨hmem, ?_⟩
    simp only [beq_iff_eq] at hpred
    simp [hpred]
  refine ⟨hqs, ?_⟩
  unfold incentive_edit_submit
  rw [if_pos hqs]
  unfold clean_redemption_center
  rw [if_pos hst]

/-- Witness for the amended C3 at the concrete store: center 3 is
inactive and is incentive 4's current center. -/
theorem incentive_edit_unchanged_inactive_center_rule_witness :
    centerX ∈ incentive_form_center_queryset db0 (some incentiveOfX) ∧
    incentive_edit_submit db0 incentiveOfX centerX =
      .validationError "Cannot assign incentive to inactive redemption center. Please select an active redemption center." :=
  incentive_edit_unchanged_inactive_center_rule db0 incentiveOfX centerX
    (by decide) (by decide)

/-- Claim C4 counterexample: farmer 1 already received 5 of incentive 1's
10 units. A second call for the same (incentive, farmer) pair requesting
6 units is answered with the insufficient-quantity error (remaining 5),
not the duplicate-disbursement error — so the duplicate error is not
reported regardless of the quantity argument. -/
theorem duplicate_pair_second_call_error_depends_on_quantity :
    (process_disbursement dbDup (some centerA) (some 1) (some 1) 6 "" 7).1 =
      .insufficientQuantity 5 ∧
    (process_disbursement dbDup (some centerA) (some 1) (some 1) 6 "" 7).1 ≠
      .duplicateDisbursement := by decide

/-- Claim C4 amended: once a disbursement exists for an (incentive,
farmer) pair, a second `process_disbursement` call for that pair never
succeeds and leaves the store unchanged, for every quantity argument; the
duplicate-disbursement error specifically is reported when the quantity
passes the earlier checks (at least 1 and within the remaining quantity)
and the farmer is still active — otherwise the earlier failing check's
error is reported instead. -/
theorem duplicate_pair_always_rejected (db : DB)
    (center : RedemptionCenter) (i f : Nat) (q : Int) (notes : String)
    (actor : Nat) (incentive : Incentive) (farmer : Farmer)
    (hfind : db.incentives.find? (fun x =>
      x.incentive_id == i &&
      x.redemption_center_id == center.redemption_center_id) = some incentive)
    (hff : db.farmers.find? (fun x => x.farmer_id == f) = some farmer)
    (d0 : Disbursement) (hd0 : d0 ∈ db.disbursements)
    (hd0i : d0.incentive_id = incentive.incentive_id)
    (hd0f : d0.farmer_id = farmer.farmer_id) :
    ((process_disbursement db (some center) (some i) (some f) q notes
        actor).2 = db ∧
     (∀ x y, (process_disbursement db (some center) (some i) (some f) q
        notes actor).1 ≠ .success x y)) ∧
    (1 ≤ q → q ≤ get_remaining_quantity db incentive →
      farmer.farmer_status = "active" →
      (process_disbursement db (some center) (some i) (some f) q notes
        actor).1 = .duplicateDisbursement) := by
  constructor
  · rcases process_disbursement_state db (some center) (some i) (some f) q
        notes actor with
      ⟨h1, h2⟩ | ⟨c2, i2, f2, incentive2, farmer2, hc2, hi2, hf2, hfind2,
        hff2, -, -, -, hnodup2, -, -⟩
    · exact ⟨h1, h2⟩
    · cases hi2; cases hf2; cases hc2
      rw [hfind2] at hfind; cases hfind
      rw [hff2] at hff; cases hff
      exact absurd ⟨hd0i, hd0f⟩ (hnodup2 d0 hd0)
  · intro hq1 hqr hfa
    have hany : (db.disbursements.any (fun d =>
        d.incentive_id == incentive.incentive_id &&
        d.farmer_id == farmer.farmer_id)) = true := by
      rw [List.any_eq_true]
      exact ⟨d0, hd0, by simp [hd0i, hd0f]⟩
    unfold process_disbursement
    dsimp only
    rw [if_neg (by omega : ¬ q < 1), hfind]
    dsimp only
    rw [if_neg (by omega : ¬ q > get_remaining_quantity db incentive)]
    simp only [hff]
    rw [if_neg (by simp [hfa]), hany]
    simp

/-- Witness for the amended C4 at the concrete store: the pair
(incentive 1, farmer 1) already has a row, so a repeat request for 2
units fails with the duplicate error and changes nothing. -/
theorem duplicate_pair_always_rejected_witness :
    ((process_disbursement dbDup (some centerA) (some 1) (some 1) 2 "" 7).2 =
        dbDup ∧
     (∀ x y, (process_disbursement dbDup (some centerA) (some 1) (some 1) 2
        "" 7).1 ≠ .success x y)) ∧
    (1 ≤ (2 : Int) → (2 : Int) ≤ get_remaining_quantity dbDup incentive1 →
      farmerA.farmer_status = "active" →
      (process_disbursement dbDup (some centerA) (some 1) (some 1) 2 ""
        7).1 = .duplicateDisbursement) :=
  duplicate_pair_always_rejected dbDup centerA 1 1 2 "" 7 incentive1
    farmerA (by decide) (by decide) ⟨1, 1, 1, 5, 1, 7, ""⟩ (by decide)
    (by decide) (by decide)

/-- Claim C5: an incentive with remaining quantity at least 1, disbursed
for exactly that remaining quantity to an eligible farmer (found, active,
no prior row for the pair), yields a success reporting remaining 0 and
drives the incentive's remaining quantity to exactly 0; every subsequent
request against the same incentive — for any farmer id and any quantity
at least 1 — is answered with the insufficient-quantity error reporting
remaining 0. -/
theorem disburse_exact_remaining_boundary (db : DB)
    (center : RedemptionCenter) (i f : Nat) (notes : String) (actor : Nat)
    (incentive : Incentive) (farmer : Farmer)
    (hfind : db.incentives.find? (fun x =>
      x.incentive_id == i &&
      x.redemption_center_id == center.redemption_center_id) = some incentive)
    (hr : 1 ≤ get_remaining_quantity db incentive)
    (hff : db.farmers.find? (fun x => x.farmer_id == f) = some farmer)
    (hfa : farmer.farmer_status = "active")
    (hnodup : ∀ d ∈ db.disbursements,
      ¬(d.incentive_id = incentive.incentive_id ∧
        d.farmer_id = farmer.farmer_id)) :
    (process_disbursement db (some center) (some i) (some f)
        (get_remaining_quantity db incentive) notes actor).1 =
      .success db.next_disbursement_id 0 ∧
    get_remaining_quantity
      (process_disbursement db (some center) (some i) (some f)
        (get_remaining_quantity db incentive) notes actor).2 incentive = 0 ∧
    (∀ (g : Nat) (q2 : Int) (notes2 : String) (actor2 : Nat), 1 ≤ q2 →
      (process_disbursement
        (process_disbursement db (some center) (some i) (some f)
          (get_remaining_quantity db incentive) notes actor).2
        (some center) (some i) (some g) q2 notes2 actor2).1 =
      .insufficientQuantity 0) := by
  have hsucc := process_disbursement_success_eq db center i f
    (get_remaining_quantity db incentive) notes actor incentive farmer hr
    hfind le_rfl hff hfa hnodup
  have hrem0 : get_remaining_quantity
      (process_disbursement db (some center) (some i) (some f)
        (get_remaining_quantity db incentive) notes actor).2 incentive = 0 := by
    rw [hsucc]
    unfold get_remaining_quantity
    rw [get_disbursed_quantity_append db _
      ⟨db.next_disbursement_id, incentive.incentive_id, farmer.farmer_id,
        (get_remaining_quantity db incentive).toNat,
        center.redemption_center_id, actor, notes⟩ incentive rfl]
    dsimp only
    rw [if_pos rfl]
    have htn : (((get_remaining_quantity db incentive).toNat : Int)) =
        get_remaining_quantity db incentive :=
      Int.toNat_of_nonneg (by omega)
    unfold get_remaining_quantity at htn ⊢
    push_cast
    omega
  refine ⟨?_, hrem0, ?_⟩
  · rw [hsucc]
    dsimp only
    rw [sub_self]
  · intro g q2 notes2 actor2 hq2
    rw [hsucc] at hrem0 ⊢
    dsimp only at hrem0 ⊢
    unfold process_disbursement
    dsimp only
    rw [if_neg (by omega : ¬ q2 < 1), hfind]
    dsimp only
    rw [hrem0]
    rw [if_pos (by omega : q2 > (0 : Int))]

/-- Witness for C5: incentive 1 of the base store has remaining 10;
disbursing 10 to farmer 1 succeeds with remaining 0 and a follow-up
request of 1 unit for farmer 2 reports insufficient quantity, remaining 0. -/
theorem disburse_exact_remaining_boundary_witness :
    (process_disbursement db0 (some centerA) (some 1) (some 1)
        (get_remaining_quantity db0 incentive1) "" 7).1 =
      .success db0.next_disbursement_id 0 ∧
    get_remaining_quantity
      (process_disbursement db0 (some centerA) (some 1) (some 1)
        (get_remaining_quantity db0 incentive1) "" 7).2 incentive1 = 0 ∧
    (∀ (g : Nat) (q2 : Int) (notes2 : String) (actor2 : Nat), 1 ≤ q2 →
      (process_disbursement
        (process_disbursement db0 (some centerA) (some 1) (some 1)
          (get_remaining_quantity db0 incentive1) "" 7).2
        (some centerA) (some 1) (some g) q2 notes2 actor2).1 =
      .insufficientQuantity 0) :=
  disburse_exact_remaining_boundary db0 centerA 1 1 "" 7 incentive1 farmerA
    (by decide) (by decide) (by decide) (by decide)
    (by intro d hd; cases hd)

/-- Claim C6: a disbursement request whose farmer id resolves to a farmer
with non-active status never succeeds and never creates a row — for every
quantity argument, sufficient or not, the store is unchanged; and
whenever the request passes the earlier checks (incentive found under the
center, quantity between 1 and the remaining amount, so that remaining
quantity is sufficient), the reported error is specifically the
inactive-farmer one. -/
theorem disburse_inactive_farmer_rejected (db : DB)
    (center : RedemptionCenter) (i f : Nat) (q : Int) (notes : String)
    (actor : Nat) (farmer : Farmer)
    (hff : db.farmers.find? (fun x => x.farmer_id == f) = some farmer)
    (hfs : farmer.farmer_status ≠ "active") :
    ((process_disbursement db (some center) (some i) (some f) q notes
        actor).2 = db ∧
     (∀ x y, (process_disbursement db (some center) (some i) (some f) q
        notes actor).1 ≠ .success x y)) ∧
    (∀ incentive,
      db.incentives.find? (fun x =>
        x.incentive_id == i &&
        x.redemption_center_id == center.redemption_center_id) =
          some incentive →
      1 ≤ q → q ≤ get_remaining_quantity db incentive →
      (process_disbursement db (some center) (some i) (some f) q notes
        actor).1 = .inactiveFarmer) := by
  constructor
  · rcases process_disbursement_state db (some center) (some i) (some f) q
        notes actor with
      ⟨h1, h2⟩ | ⟨c2, i2, f2, incentive2, farmer2, hc2, hi2, hf2, -, hff2,
        -, -, hfa2, -, -, -⟩
    · exact ⟨h1, h2⟩
    · cases hf2
      rw [hff2] at hff; cases hff
      exact absurd hfa2 hfs
  · intro incentive hfind hq1 hqr
    unfold process_disbursement
    dsimp only
    rw [if_neg (by omega : ¬ q < 1), hfind]
    dsimp only
    rw [if_neg (by omega : ¬ q > get_remaining_quantity db incentive)]
    simp only [hff]
    rw [if_pos hfs]

/-- Witness for C6 at the concrete store: farmer 3 is inactive; a request
for 4 of incentive 1's 10 units (amply sufficient) changes nothing,
cannot succeed, and reports the inactive-farmer error. -/
theorem disburse_inactive_farmer_rejected_witness :
    ((process_disbursement db0 (some centerA) (some 1) (some 3) 4 "" 7).2 =
        db0 ∧
     (∀ x y, (process_disbursement db0 (some centerA) (some 1) (some 3) 4
        "" 7).1 ≠ .success x y)) ∧
    (∀ incentive,
      db0.incentives.find? (fun x =>
        x.incentive_id == 1 &&
        x.redemption_center_id == centerA.redemption_center_id) =
          some incentive →
      1 ≤ (4 : Int) → (4 : Int) ≤ get_remaining_quantity db0 incentive →
      (process_disbursement db0 (some centerA) (some 1) (some 3) 4 ""
        7).1 = .inactiveFarmer) :=
  disburse_inactive_farmer_rejected db0 centerA 1 3 4 "" 7 farmerI
    (by decide) (by decide)

/-- Claim C7 counterexample: farmer 3 of the base store has NIN
33345678901 and inactive status; the lookup answers with the
inactive-farmer error (the JSON carries `farmer: None` and status 400),
not a success — so the lookup does not succeed for an inactive farmer. -/
theorem lookup_inactive_farmer_not_advisory :
    lookup_farmer_by_nin db0 (some centerA) "33345678901" =
      .inactiveFarmer ∧
    lookup_farmer_by_nin db0 (some centerA) "33345678901" ≠
      .found farmerI.farmer_id farmerI.farmer_status := by decide

/-- Claim C7 amended: for a caller with a redemption-center profile and a
non-empty NIN, the lookup is an exact (non-fuzzy) match on the NIN
column: when no farmer carries the NIN it fails with the not-found error
echoing the looked-up NIN; when NINs are pairwise distinct, the unique
farmer carrying the NIN is the one consulted; a matched active farmer
yields the success payload reporting status "active", but a matched
inactive farmer yields the inactive-farmer error rather than a success —
the lookup rejects inactive farmers instead of reporting their status. -/
theorem lookup_farmer_by_nin_exact_match (db : DB)
    (center : RedemptionCenter) (nin : String) (hn : nin ≠ "") :
    ((∀ f2 ∈ db.farmers, f2.nin ≠ nin) →
      lookup_farmer_by_nin db (some center) nin = .notFound nin) ∧
    (∀ farmer, db.farmers.find? (fun x => x.nin == nin) = some farmer →
      (farmer.farmer_status = "active" →
        lookup_farmer_by_nin db (some center) nin =
          .found farmer.farmer_id farmer.farmer_status) ∧
      (farmer.farmer_status ≠ "active" →
        lookup_farmer_by_nin db (some center) nin = .inactiveFarmer)) ∧
    ((db.farmers.map (fun x => x.nin)).Nodup →
      ∀ farmer ∈ db.farmers, farmer.nin = nin →
        db.farmers.find? (fun x => x.nin == nin) = some farmer) := by
  refine ⟨?_, ?_, ?_⟩
  · intro h
    have hnone : db.farmers.find? (fun x => x.nin == nin) = none := by
      rw [List.find?_eq_none]
      intro x hx
      simp only [beq_iff_eq]
      exact h x hx
    unfold lookup_farmer_by_nin
    dsimp only
    rw [if_neg (by simp [hn]), hnone]
  · intro farmer hfind
    constructor
    · intro hfa
      unfold lookup_farmer_by_nin
      dsimp only
      rw [if_neg (by simp [hn])]
      simp only [hfind]
      rw [if_neg (by simp [hfa])]
    · intro hfs
      unfold lookup_farmer_by_nin
      dsimp only
      rw [if_neg (by simp [hn])]
      simp only [hfind]
      rw [if_pos hfs]
  · intro hnodup farmer hmem hnin
    have hsome : (db.farmers.find? (fun x => x.nin == nin)).isSome :=
      List.find?_isSome.mpr ⟨farmer, hmem, by simp [hnin]⟩
    obtain ⟨b, hb⟩ := Option.isSome_iff_exists.mp hsome
    have hbmem : b ∈ db.farmers := List.mem_of_find?_eq_some hb
    have hbnin : b.nin = nin := by
      have := List.find?_some hb
      simpa using this
    have : b = farmer :=
      List.inj_on_of_nodup_map hnodup hbmem hmem (by rw [hbnin, hnin])
    rw [hb, this]

/-- Witness for the amended C7 at the concrete store: NINs are distinct,
farmer 1's NIN 12345678901 resolves to farmer 1, who is active, so the
lookup succeeds reporting status "active". -/
theorem lookup_farmer_by_nin_exact_match_witness :
    db0.farmers.find? (fun x => x.nin == "12345678901") = some farmerA ∧
    lookup_farmer_by_nin db0 (some centerA) "12345678901" =
      .found farmerA.farmer_id farmerA.farmer_status :=
  ⟨(lookup_farmer_by_nin_exact_match db0 centerA "12345678901"
      (by decide)).2.2 (by decide) farmerA (by decide) (by decide),
   ((lookup_farmer_by_nin_exact_match db0 centerA "12345678901"
      (by decide)).2.1 farmerA (by decide)).1 (by decide)⟩

/-- Claim C8 counterexample: center 3 is inactive, yet its disbursement
commit of 2 units of its incentive 3 to active farmer 1 succeeds — an
authenticated caller whose linked center is inactive does successfully
execute the disburse operation, because `process_disbursement` checks
only that the profile exists, never its status. -/
theorem inactive_center_can_still_disburse :
    centerX.redemption_center_status = "inactive" ∧
    (process_disbursement db0 (some centerX) (some 3) (some 1) 2 "" 7).1 =
      .success 1 8 := by decide

/-- Claim C8 amended: the page views of the redemption-center portal are
gated on the linked center's active status — an authenticated but
now-inactivated account is force-logged-out on its next page access — but
the JSON endpoints (`process_disbursement`, `lookup_farmer_by_nin`) check
only that the caller has a redemption-center profile: both are invariant
under the profile's status field, so the disburse commit itself is not
gated on active status. -/
theorem page_gate_forces_logout_but_json_ignores_status (db : DB)
    (rcid : Nat) (name s1 s2 : String) (iid fid : Option Nat) (q : Int)
    (notes nin : String) (actor : Nat) (hs : s1 ≠ "active") :
    redemption_center_page_gate (some ⟨rcid, name, s1⟩) = .forcedLogout ∧
    process_disbursement db (some ⟨rcid, name, s1⟩) iid fid q notes actor =
      process_disbursement db (some ⟨rcid, name, s2⟩) iid fid q notes
        actor ∧
    lookup_farmer_by_nin db (some ⟨rcid, name, s1⟩) nin =
      lookup_farmer_by_nin db (some ⟨rcid, name, s2⟩) nin := by
  refine ⟨?_, rfl, rfl⟩
  unfold redemption_center_page_gate
  dsimp only
  rw [if_pos (by simpa using hs)]

/-- Witness for the amended C8: the inactive center 3 is force-logged-out
by the page gate, while the JSON endpoints treat it exactly as they would
an active twin. -/
theorem page_gate_forces_logout_but_json_ignores_status_witness :
    redemption_center_page_gate (some ⟨3, "Center X", "inactive"⟩) =
      .forcedLogout ∧
    process_disbursement db0 (some ⟨3, "Center X", "inactive"⟩) (some 3)
        (some 1) 2 "" 7 =
      process_disbursement db0 (some ⟨3, "Center X", "active"⟩) (some 3)
        (some 1) 2 "" 7 ∧
    lookup_farmer_by_nin db0 (some ⟨3, "Center X", "inactive"⟩)
        "12345678901" =
      lookup_farmer_by_nin db0 (some ⟨3, "Center X", "active"⟩)
        "12345678901" :=
  page_gate_forces_logout_but_json_ignores_status db0 3 "Center X"
    "inactive" "active" (some 3) (some 1) 2 "" "12345678901" 7 (by decide)

/-- Claim C9 counterexample: the store-level validation of
`Incentive.quantity` — Django's `PositiveIntegerField`, range 0 to
2^31 - 1 — accepts the value 0, so a stored incentive's total quantity
can be zero; the views' percentage computation accordingly carries an
explicit zero-total special case, which returns 0 instead of dividing. -/
theorem incentive_quantity_zero_storable :
    positive_integer_field_ok 0 = true ∧
    percentage_remaining_calc 3 0 = 0 := by decide

/-- Claim C9 amended: `Incentive.quantity` can be stored as 0 (the field
accepts non-negative values), and the inventory views guard the
percentage division with an explicit `quantity > 0` special case rather
than relying on a positivity invariant; on the dashboard inventory the
division is nonetheless always genuine — every listed entry has positive
total quantity, because the `remaining > 0` filter forces it, and its
percentage equals remaining divided by total times 100. -/
theorem dashboard_inventory_division_safe (db : DB)
    (center : RedemptionCenter) :
    ∀ e ∈ dashboard_inventory db center,
      0 < e.total_quantity ∧
      e.percentage_remaining =
        (e.remaining_quantity : Rat) / (e.total_quantity : Rat) * 100 := by
  intro e he
  unfold dashboard_inventory at he
  rw [List.mem_filterMap] at he
  obtain ⟨i, hi, hsome⟩ := he
  dsimp only at hsome
  by_cases hr : 0 < get_remaining_quantity db i
  · rw [if_pos hr] at hsome
    have he2 := Option.some.inj hsome
    have hpos : 0 < i.quantity := by
      unfold get_remaining_quantity at hr
      omega
    rw [← he2]
    refine ⟨hpos, ?_⟩
    dsimp only
    unfold percentage_remaining_calc
    rw [if_pos hpos]
  · rw [if_neg hr] at hsome
    cases hsome

/-- Witness for the amended C9: on the base store, center 1's dashboard
inventory lists incentive 1 with total 10, remaining 10 and percentage
100, a genuine division by the positive total. -/
theorem dashboard_inventory_division_safe_witness :
    0 < (⟨1, 10, 0, 10, percentage_remaining_calc 10 10⟩ :
      InventoryEntry).total_quantity ∧
    (⟨1, 10, 0, 10, percentage_remaining_calc 10 10⟩ :
      InventoryEntry).percentage_remaining =
      (((⟨1, 10, 0, 10, percentage_remaining_calc 10 10⟩ :
          InventoryEntry).remaining_quantity : Rat) /
        ((⟨1, 10, 0, 10, percentage_remaining_calc 10 10⟩ :
          InventoryEntry).total_quantity : Rat)) * 100 :=
  dashboard_inventory_division_safe db0 centerA
    ⟨1, 10, 0, 10, percentage_remaining_calc 10 10⟩
    (by exact List.Mem.head _)

/-- Claim C10: a successful disbursement call appends exactly one new
disbursement row — carrying the requested quantity — and modifies nothing
else: the incentive, farmer and center tables are untouched, and every
incentive's remaining quantity is unchanged except the one the new row
references, whose remaining drops by exactly the requested quantity
purely because it is recomputed as a derived sum over the enlarged
disbursement set. -/
theorem disburse_success_frame (db : DB)
    (profile : Option RedemptionCenter) (iid fid : Option Nat) (q : Int)
    (notes : String) (actor : Nat) (did : Nat) (rem : Int)
    (h : (process_disbursement db profile iid fid q notes actor).1 =
      .success did rem) :
    (process_disbursement db profile iid fid q notes actor).2.incentives =
      db.incentives ∧
    (process_disbursement db profile iid fid q notes actor).2.farmers =
      db.farmers ∧
    (process_disbursement db profile iid fid q notes actor).2.centers =
      db.centers ∧
    (process_disbursement db profile iid fid q notes
      actor).2.next_disbursement_id = db.next_disbursement_id + 1 ∧
    ∃ d : Disbursement,
      (process_disbursement db profile iid fid q notes
        actor).2.disbursements = db.disbursements ++ [d] ∧
      d.quantity = q.toNat ∧
      ∀ j : Incentive,
        get_remaining_quantity
          (process_disbursement db profile iid fid q notes actor).2 j =
        get_remaining_quantity db j -
          (if d.incentive_id = j.incentive_id then q else 0) := by
  rcases process_disbursement_state db profile iid fid q notes actor with
    ⟨-, h2⟩ | ⟨center, i, f, incentive, farmer, -, -, -, -, -, hq1, -, -, -,
      hdb, -⟩
  · exact absurd h (h2 did rem)
  · rw [hdb]
    refine ⟨rfl, rfl, rfl, rfl,
      ⟨db.next_disbursement_id, incentive.incentive_id, farmer.farmer_id,
        q.toNat, center.redemption_center_id, actor, notes⟩, rfl, rfl, ?_⟩
    intro j
    unfold get_remaining_quantity
    rw [get_disbursed_quantity_append db _
      ⟨db.next_disbursement_id, incentive.incentive_id, farmer.farmer_id,
        q.toNat, center.redemption_center_id, actor, notes⟩ j rfl]
    dsimp only
    have htn : ((q.toNat : Int)) = q := Int.toNat_of_nonneg (by omega)
    by_cases hid : incentive.incentive_id = j.incentive_id
    · rw [if_pos hid, if_pos hid]
      push_cast
      omega
    · rw [if_neg hid, if_neg hid]
      push_cast
      omega

/-- Witness for C10: the successful 4-unit disbursement of incentive 1 to
farmer 1 on the base store. -/
theorem disburse_success_frame_witness :
    (process_disbursement db0 (some centerA) (some 1) (some 1) 4 ""
      7).2.incentives = db0.incentives ∧
    (process_disbursement db0 (some centerA) (some 1) (some 1) 4 ""
      7).2.farmers = db0.farmers ∧
    (process_disbursement db0 (some centerA) (some 1) (some 1) 4 ""
      7).2.centers = db0.centers ∧
    (process_disbursement db0 (some centerA) (some 1) (some 1) 4 ""
      7).2.next_disbursement_id = db0.next_disbursement_id + 1 ∧
    ∃ d : Disbursement,
      (process_disbursement db0 (some centerA) (some 1) (some 1) 4 ""
        7).2.disbursements = db0.disbursements ++ [d] ∧
      d.quantity = (4 : Int).toNat ∧
      ∀ j : Incentive,
        get_remaining_quantity
          (process_disbursement db0 (some centerA) (some 1) (some 1) 4 ""
            7).2 j =
        get_remaining_quantity db0 j -
          (if d.incentive_id = j.incentive_id then 4 else 0) :=
  disburse_success_frame db0 (some centerA) (some 1) (some 1) 4 "" 7 1 6
    (by decide)

end FarmersMgmt
